import Mathlib

/-!
# Verification of the Wikipedia pageview ingestion pipeline

A shallow embedding of `src/data_ingest/wikipedia_data_ingest.py` together
with theorems settling the specification claims about it.

Modelling conventions:
* Timestamps (`datetime` values) are natural numbers of microseconds since an
  arbitrary epoch; `replace(minute=0, second=0, microsecond=0)` becomes
  truncation to a multiple of an hour's worth of microseconds.
* File contents are byte lists; a file that does not exist is `none`.
* Fallible external effects (the HTTP transport, the gzip decoder, warehouse
  SQL statements) are supplied as explicit environment values, and functions
  return the boolean outcomes and event traces that the Python code produces.
-/

namespace WikipediaIngest

/-- Microseconds in one hour (`timedelta(hours=1)` at microsecond resolution). -/
def hourUs : Nat := 3600000000

/-- `t.replace(minute=0, second=0, microsecond=0)` for a timestamp `t` given in
microseconds: truncation down to the containing hour. -/
def truncHour (t : Nat) : Nat := t / hourUs * hourUs

/-- `t.minute` for a timestamp in microseconds. -/
def minuteOf (t : Nat) : Nat := t / 60000000 % 60

/-- `t.second` for a timestamp in microseconds. -/
def secondOf (t : Nat) : Nat := t / 1000000 % 60

/-- The hour-collection loop of `WikipediaDownloader.download_data_for_range`
(lines 152-155):
`while current_date <= effective_end_dt: append; current_date += timedelta(hours=1)`. -/
def hoursToProcess (cur eff : Nat) : List Nat :=
  if _h : cur ≤ eff then cur :: hoursToProcess (cur + hourUs) eff else []
termination_by eff + 1 - cur
decreasing_by
  have hpos : 0 < hourUs := by norm_num [hourUs]
  omega

/-- The slot list built by `WikipediaDownloader.download_data_for_range`
(lines 143-155): truncate `start_dt` to the hour, truncate `end_dt` to the
hour and advance it one hour when `end_dt.minute > 0 or end_dt.second > 0`,
then collect every hour from the truncated start through the effective end. -/
def download_data_for_range_slots (start_dt end_dt : Nat) : List Nat :=
  let current_date := truncHour start_dt
  let effective_end_dt :=
    if 0 < minuteOf end_dt ∨ 0 < secondOf end_dt then truncHour end_dt + hourUs
    else truncHour end_dt
  hoursToProcess current_date effective_end_dt

/-- Bytes of a local file. -/
abbrev Bytes := List Nat

/-- The two local artifacts of one hour slot: the compressed `.gz` file and
the decompressed `.txt` file (`none` = the file does not exist on disk).
The file names embed the slot's date and hour
(`pageviews-YYYYMMDD-HH0000.gz/.txt`, `_get_file_metadata`, lines 61-73),
so distinct slots own disjoint paths. -/
structure SlotFiles where
  gz : Option Bytes
  txt : Option Bytes
deriving DecidableEq

/-- Outcome of one `requests.get(url, stream=True)` interaction.
`connError` models `requests.get` itself raising a `RequestException`;
`response status delivered streamOk` models a response with the given HTTP
status whose body iterator hands out the chunks `delivered` and then either
finishes normally (`streamOk = true`) or raises a `RequestException`
mid-stream (`streamOk = false`). -/
inductive NetResult where
  | connError : NetResult
  | response (status : Nat) (delivered : List Bytes) (streamOk : Bool) : NetResult

/-- External environment for processing one slot: the network outcome used by
`_download_file`, and the gzip decoder used by `_unzip_file` (`none` models
`gzip` raising on corrupt or truncated input). -/
structure SlotEnv where
  net : NetResult
  gunzip : Bytes → Option Bytes

/-- `response.raise_for_status()` raises exactly for 4xx and 5xx statuses. -/
def raise_for_status_raises (status : Nat) : Bool :=
  decide (400 ≤ status) && decide (status < 600)

/-- `WikipediaDownloader._download_file` (lines 89-102). Returns the boolean
result together with the state of the `.gz` file afterwards. The output file
is opened only after `raise_for_status` passes, and every chunk handed out by
`iter_content` is written as it arrives, so a mid-stream `RequestException`
leaves the chunks delivered so far on disk while the function returns
`False`. -/
def download_file (net : NetResult) (gz0 : Option Bytes) : Bool × Option Bytes :=
  match net with
  | .connError => (false, gz0)
  | .response status delivered streamOk =>
    if raise_for_status_raises status then (false, gz0)
    else (streamOk, some delivered.flatten)

/-- `WikipediaDownloader._unzip_file` (lines 104-117). Returns the boolean
result together with the state of the `.txt` file afterwards. If the
compressed file is missing, `gzip.open` raises before the output file is
opened. Otherwise `open(output_path_txt, 'wb')` truncates the output file
first, then `f_in.read()` either decompresses fully or raises, in which case
the output file is left empty. The `.gz` file is never removed (the
`os.remove` on line 113 is commented out). -/
def unzip_file (gunzip : Bytes → Option Bytes) (gz0 txt0 : Option Bytes) :
    Bool × Option Bytes :=
  match gz0 with
  | none => (false, txt0)
  | some c =>
    match gunzip c with
    | some d => (true, some d)
    | none => (false, some [])

/-- Result of `process_hour_data` on one slot: the returned boolean, the slot's
files afterwards, and counters of the HTTP requests issued and the unzip
attempts made during the call. -/
structure ProcessResult where
  ok : Bool
  files : SlotFiles
  httpRequests : Nat
  unzipCalls : Nat
deriving DecidableEq

/-- `WikipediaDownloader.process_hour_data` (lines 119-131):
if the decompressed file exists, return `True` immediately;
else if the compressed file exists, skip the download and unzip;
else download, returning `False` on failure, and then unzip. -/
def process_hour_data (env : SlotEnv) (fs : SlotFiles) : ProcessResult :=
  if fs.txt.isSome then
    { ok := true, files := fs, httpRequests := 0, unzipCalls := 0 }
  else if fs.gz.isSome then
    let r := unzip_file env.gunzip fs.gz fs.txt
    { ok := r.fst, files := { gz := fs.gz, txt := r.snd },
      httpRequests := 0, unzipCalls := 1 }
  else
    let d := download_file env.net fs.gz
    if d.fst then
      let r := unzip_file env.gunzip d.snd fs.txt
      { ok := r.fst, files := { gz := d.snd, txt := r.snd },
        httpRequests := 1, unzipCalls := 1 }
    else
      { ok := false, files := { gz := d.snd, txt := fs.txt },
        httpRequests := 1, unzipCalls := 0 }

/-- `list(executor.map(self.process_hour_data, hours_to_process))` in
`download_data_for_range` (lines 158-161). `ThreadPoolExecutor.map` yields
results in the order of its input iterable, independent of completion order
and of the pool size `max_workers`; each pooled task reads and writes only
its own slot's files (distinct paths per slot), so a slot's outcome depends
only on that slot's environment and file state. -/
def executor_map_results (envs : Nat → SlotEnv) (fss : Nat → SlotFiles)
    (max_workers : Nat) (hours_to_process : List Nat) : List Bool :=
  hours_to_process.map fun slot => (process_hour_data (envs slot) (fss slot)).ok

/-- One warehouse interaction performed by
`SnowflakeLoader.load_data_from_local_to_snowflake` for a file:
`put f` is the `PUT` of `_upload_file_to_stage`, `copy f` the `COPY INTO` of
`_copy_data_into_table`. -/
inductive LoadEvent where
  | put (file_name : String) : LoadEvent
  | copy (file_name : String) : LoadEvent
deriving DecidableEq

/-- External environment of the loader: whether the stage upload (`PUT`) of a
given file name succeeds. -/
structure LoaderEnv where
  uploadOk : String → Bool

/-- `f.endswith('.txt')`, expressed on the character list of the file name so
that proofs can evaluate it. -/
def endswith_txt (f : String) : Bool := ".txt".data.isSuffixOf f.data

/-- Python's `sorted` on a list of strings: the lexicographically (by code
point) sorted permutation of the input.  The output is uniquely determined by
the input's multiset of elements, so any sorting algorithm over Mathlib's
lexicographic `String` order models it. -/
def py_sorted (l : List String) : List String :=
  l.insertionSort (· ≤ ·)

/-- The per-file loop body of `load_data_from_local_to_snowflake`
(lines 325-331): for each file, `PUT` it onto the stage; if the upload fails,
`continue` to the next file, otherwise `COPY` it into the table. -/
def process_files (env : LoaderEnv) : List String → List LoadEvent
  | [] => []
  | file_name :: rest =>
    if env.uploadOk file_name then
      LoadEvent.put file_name :: LoadEvent.copy file_name :: process_files env rest
    else
      LoadEvent.put file_name :: process_files env rest

/-- `SnowflakeLoader.load_data_from_local_to_snowflake` (lines 309-334) as the
trace of warehouse interactions it performs: nothing without a connection,
otherwise the `.txt` files of the directory listing, sorted, each uploaded
and (upload permitting) copied. -/
def load_data_from_local_to_snowflake (connAlive : Bool) (env : LoaderEnv)
    (dir_listing : List String) : List LoadEvent :=
  if connAlive = false then []
  else process_files env (py_sorted (dir_listing.filter (fun f => endswith_txt f)))

/-- The sequence of file names in the order the loader starts processing them
(the order of the `PUT` events of a trace). -/
def processedOrder (trace : List LoadEvent) : List String :=
  trace.filterMap fun e =>
    match e with
    | .put f => some f
    | .copy _ => none

/-- External environment of `setup_snowflake_objects`: whether each of the
three DDL statements succeeds when executed. -/
structure DdlEnv where
  schemaOk : Bool
  stageOk : Bool
  tableOk : Bool

/-- The three DDL statements `setup_snowflake_objects` can attempt. -/
inductive DdlStmt where
  | createSchema : DdlStmt
  | createStage : DdlStmt
  | createTable : DdlStmt
deriving DecidableEq

/-- `SnowflakeLoader.setup_snowflake_objects` (lines 226-270) as its boolean
result together with the list of DDL statements actually attempted:
no connection aborts immediately; otherwise `CREATE SCHEMA`, `CREATE STAGE`
and `CREATE TABLE` are executed in order, returning `False` at the first
failure without attempting the later statements. -/
def setup_snowflake_objects (connAlive : Bool) (env : DdlEnv) :
    Bool × List DdlStmt :=
  if connAlive = false then (false, [])
  else if env.schemaOk = false then (false, [DdlStmt.createSchema])
  else if env.stageOk = false then (false, [DdlStmt.createSchema, DdlStmt.createStage])
  else if env.tableOk = false then
    (false, [DdlStmt.createSchema, DdlStmt.createStage, DdlStmt.createTable])
  else (true, [DdlStmt.createSchema, DdlStmt.createStage, DdlStmt.createTable])

/-- The observable steps of `run_ingestion_workflow`. -/
inductive WfEvent where
  | processHourCall : WfEvent
  | connectCall : WfEvent
  | setupCall : WfEvent
  | loadCall : WfEvent
  | closeCall : WfEvent
deriving DecidableEq

/-- External environment of a workflow run: whether the current hour's
download succeeds, whether the Snowflake credentials pass the constructor's
validation (`ValueError` otherwise), whether `connect` succeeds, and the DDL
environment of `setup_snowflake_objects`. -/
structure WorkflowEnv where
  downloadOk : Bool
  credsOk : Bool
  connectOk : Bool
  ddl : DdlEnv

/-- `run_ingestion_workflow` (lines 345-393) as the trace of its steps:
abort after a failed download; abort on a constructor `ValueError`; abort
after a failed `connect` (before the `try`/`finally`, so `close_connection`
is not reached); once connected, run `setup_snowflake_objects` and — only if
it succeeded — `load_data_from_local_to_snowflake`, with `close_connection`
executed by the `finally` block on both exit paths. -/
def run_ingestion_workflow (env : WorkflowEnv) : List WfEvent :=
  if env.downloadOk = false then [WfEvent.processHourCall]
  else if env.credsOk = false then [WfEvent.processHourCall]
  else if env.connectOk = false then [WfEvent.processHourCall, WfEvent.connectCall]
  else if (setup_snowflake_objects true env.ddl).fst = false then
    [WfEvent.processHourCall, WfEvent.connectCall, WfEvent.setupCall, WfEvent.closeCall]
  else
    [WfEvent.processHourCall, WfEvent.connectCall, WfEvent.setupCall,
     WfEvent.loadCall, WfEvent.closeCall]

/-- The connection parameters accepted by `SnowflakeLoader.__init__`
(lines 169-198); the constructor stores them in `self.connection_params`. -/
structure SnowflakeLoaderCfg where
  account : String
  user : String
  password : String
  warehouse : String
  database : String
  schema : String
  role : String

/-- The local variable `schema = 'WIKIPEDIA'` of `setup_snowflake_objects`
(line 237): the DDL statements are built from this literal, not from the
connection parameter. -/
def setup_schema_name (self : SnowflakeLoaderCfg) : String := "WIKIPEDIA"

/-- `schema_sql` of `setup_snowflake_objects` (line 241). -/
def schema_sql (self : SnowflakeLoaderCfg) : String :=
  "CREATE SCHEMA IF NOT EXISTS " ++ setup_schema_name self

/-- `stage_sql` of `setup_snowflake_objects` (line 248). -/
def stage_sql (self : SnowflakeLoaderCfg) (stage_name : String) : String :=
  "CREATE STAGE IF NOT EXISTS " ++ setup_schema_name self ++ "." ++ stage_name

/-- `table_sql` of `setup_snowflake_objects` (lines 255-264), with the
f-string's newlines and indentation reproduced verbatim. -/
def table_sql (self : SnowflakeLoaderCfg) (table_name : String) : String :=
  "\n                CREATE TABLE IF NOT EXISTS " ++ setup_schema_name self ++ "."
    ++ table_name
    ++ " (\n                    PROJECT_CODE VARCHAR,\n                    PAGE_TITLE VARCHAR,\n                    VIEW_COUNT NUMBER,\n                    BYTE_SIZE NUMBER,\n                    FILE_NAME VARCHAR,\n                    LOAD_TIMESTAMP TIMESTAMP_NTZ DEFAULT CURRENT_TIMESTAMP()\n                )\n            "

/-- The three DDL statement texts issued by `setup_snowflake_objects`, in
order. -/
def setup_ddl_statements (self : SnowflakeLoaderCfg) (stage_name table_name : String) :
    List String :=
  [schema_sql self, stage_sql self stage_name, table_sql self table_name]

/-- `self.connection_params.get('schema', 'WIKIPEDIA')` as used by
`_upload_file_to_stage` (line 274) and `_copy_data_into_table` (line 285).
The constructor always stores the `schema` key, so `get` returns the
configured connection parameter and the `'WIKIPEDIA'` default is dead. -/
def connection_schema (self : SnowflakeLoaderCfg) : String := self.schema

/-- `full_stage_name` of `_upload_file_to_stage` (line 275). -/
def full_stage_name (self : SnowflakeLoaderCfg) (stage_name : String) : String :=
  connection_schema self ++ "." ++ stage_name

/-- `full_table_name` of `_copy_data_into_table` (line 286). -/
def full_table_name (self : SnowflakeLoaderCfg) (table_name : String) : String :=
  connection_schema self ++ "." ++ table_name

/-- The `PUT` command of `_upload_file_to_stage` (line 277). -/
def put_sql (self : SnowflakeLoaderCfg) (local_path stage_name : String) : String :=
  "PUT file://" ++ local_path ++ " @" ++ full_stage_name self stage_name
    ++ " AUTO_COMPRESS=FALSE OVERWRITE=TRUE"

/-- The `COPY INTO` command of `_copy_data_into_table` (lines 289-301), with
the f-string's newlines, indentation and quotes reproduced verbatim
(`\x27` is the single-quote character). -/
def copy_sql (self : SnowflakeLoaderCfg) (file_name stage_name table_name : String) :
    String :=
  "\n            COPY INTO " ++ full_table_name self table_name
    ++ " (PROJECT_CODE, PAGE_TITLE, VIEW_COUNT, BYTE_SIZE, FILE_NAME)\n            FROM (SELECT $1, $2, $3, $4, \x27"
    ++ file_name ++ "\x27 FROM @" ++ full_stage_name self stage_name ++ "/" ++ file_name
    ++ ")\n            FILE_FORMAT = (\n                TYPE = CSV\n                FIELD_DELIMITER = \x27 \x27\n                SKIP_HEADER = 0\n                ERROR_ON_COLUMN_COUNT_MISMATCH = FALSE\n                NULL_IF = (\x27\x27)\n                EMPTY_FIELD_AS_NULL = TRUE\n            )\n            ON_ERROR = \x27CONTINUE\x27\n        "

/-! ## Theorems -/

/-- A call of `process_hour_data` that returns `True` leaves the decompressed
file present. -/
theorem process_hour_data_ok_txt_isSome (env : SlotEnv) (fs : SlotFiles)
    (h : (process_hour_data env fs).ok = true) :
    ((process_hour_data env fs).files).txt.isSome := by
  obtain ⟨gz, txt⟩ := fs
  cases txt with
  | some t => simp [process_hour_data]
  | none =>
    cases gz with
    | some c =>
      simp only [process_hour_data, unzip_file] at h ⊢
      cases henv : env.gunzip c <;> simp [henv] at h ⊢
    | none =>
      simp only [process_hour_data, download_file] at h ⊢
      cases hnet : env.net with
      | connError => simp [hnet] at h
      | response status delivered streamOk =>
        simp only [hnet] at h ⊢
        by_cases hst : raise_for_status_raises status <;>
          simp only [hst, if_pos, if_neg, Bool.false_eq_true, if_false, if_true] at h ⊢
        · simp at h
        · cases streamOk with
          | false => simp at h
          | true =>
            simp only [if_true, unzip_file] at h ⊢
            cases henv : env.gunzip delivered.flatten <;> simp [henv] at h ⊢

/-- C1: `process_hour_data` downloads only when neither local artifact exists:
with the decompressed file present it returns `True` touching neither the
network nor the disk; with only the compressed file present it issues no HTTP
request and goes straight to decompression; any call that issues an HTTP
request found neither artifact; and after a successful call, a repeat call —
under any network environment, including a disabled one — returns `True`
without an HTTP request and without changing the files. -/
theorem C1_fetcher_download_only_when_absent (env env' : SlotEnv) (fs : SlotFiles) :
    (fs.txt.isSome →
      process_hour_data env fs =
        { ok := true, files := fs, httpRequests := 0, unzipCalls := 0 }) ∧
    (fs.txt = none → fs.gz.isSome →
      (process_hour_data env fs).httpRequests = 0 ∧
      (process_hour_data env fs).unzipCalls = 1) ∧
    ((process_hour_data env fs).httpRequests ≠ 0 → fs.txt = none ∧ fs.gz = none) ∧
    ((process_hour_data env fs).ok = true →
      process_hour_data env' (process_hour_data env fs).files =
        { ok := true, files := (process_hour_data env fs).files,
          httpRequests := 0, unzipCalls := 0 }) := by
  refine ⟨?_, ?_, ?_, ?_⟩
  · intro h
    simp [process_hour_data, h]
  · intro htxt hgz
    simp [process_hour_data, htxt, hgz]
  · intro h
    obtain ⟨gz, txt⟩ := fs
    cases txt with
    | some t => simp [process_hour_data] at h
    | none =>
      cases gz with
      | some c => simp [process_hour_data] at h
      | none => exact ⟨rfl, rfl⟩
  · intro h
    have hsome := process_hour_data_ok_txt_isSome env fs h
    generalize hg : (process_hour_data env fs).files = fl at hsome ⊢
    simp [process_hour_data, hsome]

/-- C1 witness: with the decompressed artifact already on disk and the
network disabled, the call succeeds and performs no I/O. -/
theorem C1_fetcher_witness :
    ((⟨some [7], some [1, 2]⟩ : SlotFiles).txt.isSome) ∧
    process_hour_data ⟨NetResult.connError, fun _ => none⟩ ⟨some [7], some [1, 2]⟩ =
      { ok := true, files := ⟨some [7], some [1, 2]⟩,
        httpRequests := 0, unzipCalls := 0 } :=
  ⟨by decide,
    (C1_fetcher_download_only_when_absent ⟨NetResult.connError, fun _ => none⟩
      ⟨NetResult.connError, fun _ => none⟩ ⟨some [7], some [1, 2]⟩).1 (by decide)⟩

/-- C4 counterexample: a transport error in the middle of the response body
(status 200, one chunk delivered, then a `RequestException`) makes
`process_hour_data` return `False` with a partial compressed file — content
`[1]`, the bytes already streamed — left on disk, contradicting the claim
that no partial compressed file is ever created on a transport error. -/
theorem C4_counterexample :
    (process_hour_data ⟨NetResult.response 200 [[1]] false, fun _ => none⟩
        ⟨none, none⟩).ok = false ∧
    (process_hour_data ⟨NetResult.response 200 [[1]] false, fun _ => none⟩
        ⟨none, none⟩).files.gz = some [1] := by
  exact ⟨rfl, rfl⟩

/-- C4 (amended): on a download failure `process_hour_data` returns `False`;
when the failure happens before the response body starts streaming — a
connection error, or a 4xx/5xx status rejected by `raise_for_status` — no
compressed file is created; a transport error during the body stream also
returns `False`, but leaves a partial compressed file holding exactly the
chunks delivered before the error. -/
theorem C4_download_failure_behaviour (env : SlotEnv) (fs : SlotFiles)
    (htxt : fs.txt = none) (hgz : fs.gz = none) :
    (env.net = NetResult.connError →
      (process_hour_data env fs).ok = false ∧
      (process_hour_data env fs).files.gz = none ∧
      (process_hour_data env fs).files.txt = none) ∧
    (∀ status delivered streamOk,
      env.net = NetResult.response status delivered streamOk →
      raise_for_status_raises status = true →
      (process_hour_data env fs).ok = false ∧
      (process_hour_data env fs).files.gz = none ∧
      (process_hour_data env fs).files.txt = none) ∧
    (∀ status delivered,
      env.net = NetResult.response status delivered false →
      raise_for_status_raises status = false →
      (process_hour_data env fs).ok = false ∧
      (process_hour_data env fs).files.gz = some delivered.flatten) := by
  refine ⟨?_, ?_, ?_⟩
  · intro hnet
    simp [process_hour_data, htxt, hgz, download_file, hnet]
  · intro status delivered streamOk hnet hst
    simp [process_hour_data, htxt, hgz, download_file, hnet, hst]
  · intro status delivered hnet hst
    simp [process_hour_data, htxt, hgz, download_file, hnet, hst]

/-- C4 witness: a connection error on an empty slot returns `False` and
creates no files. -/
theorem C4_download_failure_witness :
    ((⟨none, none⟩ : SlotFiles).txt = none) ∧
    ((⟨none, none⟩ : SlotFiles).gz = none) ∧
    ((process_hour_data ⟨NetResult.connError, fun _ => none⟩ ⟨none, none⟩).ok = false ∧
      (process_hour_data ⟨NetResult.connError, fun _ => none⟩ ⟨none, none⟩).files.gz = none ∧
      (process_hour_data ⟨NetResult.connError, fun _ => none⟩ ⟨none, none⟩).files.txt = none) :=
  ⟨rfl, rfl,
    (C4_download_failure_behaviour ⟨NetResult.connError, fun _ => none⟩
      ⟨none, none⟩ rfl rfl).1 rfl⟩

/-- C8: when decompression of the compressed artifact fails,
`process_hour_data` returns `False` and leaves the compressed file in place,
and a later retry issues no HTTP request; download failures are likewise
converted to a `False` return value — neither error propagates to the
caller. -/
theorem C8_unzip_failure_keeps_gz (env env₂ : SlotEnv) (fs : SlotFiles) (c : Bytes)
    (htxt : fs.txt = none) (hgz : fs.gz = some c) (hfail : env.gunzip c = none) :
    (process_hour_data env fs).ok = false ∧
    (process_hour_data env fs).files.gz = some c ∧
    (process_hour_data env₂ (process_hour_data env fs).files).httpRequests = 0 ∧
    (∀ (env₀ : SlotEnv) (fs₀ : SlotFiles), fs₀.txt = none → fs₀.gz = none →
      (download_file env₀.net fs₀.gz).fst = false →
      (process_hour_data env₀ fs₀).ok = false) := by
  have hmain : process_hour_data env fs =
      { ok := false, files := { gz := some c, txt := some [] },
        httpRequests := 0, unzipCalls := 1 } := by
    simp [process_hour_data, htxt, hgz, unzip_file, hfail]
  refine ⟨by simp [hmain], by simp [hmain], by rw [hmain]; simp [process_hour_data], ?_⟩
  intro env₀ fs₀ htxt₀ hgz₀ hdl
  rw [hgz₀] at hdl
  simp [process_hour_data, htxt₀, hgz₀, hdl]

/-- C8 witness: a corrupt archive (gzip decoder that always raises) on a slot
holding only the compressed file `[3]` returns `False`, keeps `[3]` on disk,
and the retry performs no download. -/
theorem C8_unzip_failure_witness :
    ((⟨some [3], none⟩ : SlotFiles).txt = none) ∧
    ((⟨some [3], none⟩ : SlotFiles).gz = some [3]) ∧
    ((process_hour_data ⟨NetResult.connError, fun _ => none⟩ ⟨some [3], none⟩).ok = false ∧
      (process_hour_data ⟨NetResult.connError, fun _ => none⟩
        ⟨some [3], none⟩).files.gz = some [3]) :=
  ⟨rfl, rfl, by
    have h := C8_unzip_failure_keeps_gz ⟨NetResult.connError, fun _ => none⟩
      ⟨NetResult.connError, fun _ => none⟩ ⟨some [3], none⟩ [3] rfl rfl rfl
    exact ⟨h.1, h.2.1⟩⟩

/-- One unfolding step of the hour-collection while loop. -/
theorem hoursToProcess_step (cur eff : Nat) :
    hoursToProcess cur eff =
      if cur ≤ eff then cur :: hoursToProcess (cur + hourUs) eff else [] := by
  rw [hoursToProcess]
  rfl

/-- Closed form of the hour-collection loop on an hour-aligned span: starting
at `cur` and ending at `cur + k * hourUs`, it yields the `k + 1` hours
`cur, cur + hourUs, …, cur + k * hourUs`. -/
theorem hoursToProcess_closed_form (k cur : Nat) :
    hoursToProcess cur (cur + k * hourUs) =
      (List.range (k + 1)).map (fun i => cur + i * hourUs) := by
  induction k generalizing cur with
  | zero =>
    rw [hoursToProcess_step, hoursToProcess_step]
    norm_num [hourUs]
    rw [List.range_succ_eq_map]
    simp
  | succ n ih =>
    have hstep : cur + (n + 1) * hourUs = cur + hourUs + n * hourUs := by ring
    rw [hoursToProcess_step, if_pos (Nat.le_add_right _ _), hstep, ih]
    rw [List.range_succ_eq_map (n + 1), List.map_cons, List.map_map]
    refine congrArg₂ List.cons (by ring) ?_
    refine List.map_congr_left ?_
    intro i _
    simp only [Function.comp_apply, Nat.succ_eq_add_one]
    ring

/-- For `start_dt ≤ end_dt` the slot list of `download_data_for_range` is the
arithmetic progression of `k + 1` hours from the truncated start, whose last
element is the effective end. -/
theorem download_slots_closed (start_dt end_dt : Nat) (hse : start_dt ≤ end_dt) :
    ∃ k : Nat,
      download_data_for_range_slots start_dt end_dt =
        (List.range (k + 1)).map (fun i => truncHour start_dt + i * hourUs) ∧
      truncHour start_dt + k * hourUs =
        (if 0 < minuteOf end_dt ∨ 0 < secondOf end_dt then truncHour end_dt + hourUs
         else truncHour end_dt) := by
  have hq : start_dt / hourUs ≤ end_dt / hourUs := Nat.div_le_div_right hse
  by_cases hb : 0 < minuteOf end_dt ∨ 0 < secondOf end_dt
  · refine ⟨end_dt / hourUs + 1 - start_dt / hourUs, ?_, ?_⟩
    · have heff : truncHour start_dt +
          (end_dt / hourUs + 1 - start_dt / hourUs) * hourUs =
          truncHour end_dt + hourUs := by
        simp only [truncHour]
        rw [Nat.sub_mul, Nat.add_sub_cancel'
          (by nlinarith : start_dt / hourUs * hourUs ≤ (end_dt / hourUs + 1) * hourUs)]
        ring
      rw [download_data_for_range_slots]
      simp only [if_pos hb]
      rw [← heff, hoursToProcess_closed_form]
    · simp only [if_pos hb, truncHour]
      rw [Nat.sub_mul, Nat.add_sub_cancel'
        (by nlinarith : start_dt / hourUs * hourUs ≤ (end_dt / hourUs + 1) * hourUs)]
      ring
  · refine ⟨end_dt / hourUs - start_dt / hourUs, ?_, ?_⟩
    · have heff : truncHour start_dt +
          (end_dt / hourUs - start_dt / hourUs) * hourUs = truncHour end_dt := by
        simp only [truncHour]
        rw [Nat.sub_mul, Nat.add_sub_cancel' (Nat.mul_le_mul_right _ hq)]
      rw [download_data_for_range_slots]
      simp only [if_neg hb]
      rw [← heff, hoursToProcess_closed_form]
    · simp only [if_neg hb, truncHour]
      rw [Nat.sub_mul, Nat.add_sub_cancel' (Nat.mul_le_mul_right _ hq)]

/-- C2: for `start_dt ≤ end_dt` the hour-range resolution of
`download_data_for_range` produces slots at exact one-hour stride, whose
first slot is `start_dt` truncated to the hour, whose last slot is at least
`end_dt` truncated to the hour, which include the truncated end itself when
`end_dt`'s minute and second components are zero, and which collapse to the
single slot `[T]` when `start_dt = end_dt = T` for an exact hour `T`. -/
theorem C2_resolve_range (start_dt end_dt : Nat) (hse : start_dt ≤ end_dt) :
    (∀ i, i + 1 < (download_data_for_range_slots start_dt end_dt).length →
      (download_data_for_range_slots start_dt end_dt)[i + 1]? =
        ((download_data_for_range_slots start_dt end_dt)[i]?).map
          (fun t => t + hourUs)) ∧
    (download_data_for_range_slots start_dt end_dt).head? =
      some (truncHour start_dt) ∧
    (∃ last, (download_data_for_range_slots start_dt end_dt).getLast? = some last ∧
      truncHour end_dt ≤ last) ∧
    (minuteOf end_dt = 0 → secondOf end_dt = 0 →
      truncHour end_dt ∈ download_data_for_range_slots start_dt end_dt) ∧
    (start_dt = end_dt → truncHour start_dt = start_dt →
      download_data_for_range_slots start_dt end_dt = [start_dt]) := by
  obtain ⟨k, hsl, heff⟩ := download_slots_closed start_dt end_dt hse
  have hlen : (download_data_for_range_slots start_dt end_dt).length = k + 1 := by
    rw [hsl]; simp
  refine ⟨?_, ?_, ?_, ?_, ?_⟩
  · intro i hi
    rw [hlen] at hi
    rw [hsl, List.getElem?_map, List.getElem?_map, List.getElem?_range (by omega),
        List.getElem?_range (by omega)]
    simp only [Option.map_some']
    exact congrArg some (by ring)
  · rw [hsl, List.range_succ_eq_map]
    simp
  · refine ⟨truncHour start_dt + k * hourUs, ?_, ?_⟩
    · rw [hsl, List.range_succ, List.map_append]
      simp
    · rw [heff]
      split
      · have hp : 0 < hourUs := by norm_num [hourUs]
        omega
      · omega
  · intro hm hs
    rw [hm, hs] at heff
    simp at heff
    rw [hsl]
    exact List.mem_map.mpr ⟨k, List.mem_range.mpr (by omega), heff⟩
  · intro heq htr
    subst heq
    have hmod : start_dt % hourUs = 0 := by
      simp only [truncHour, hourUs] at htr ⊢
      omega
    have hm : minuteOf start_dt = 0 := by
      simp only [minuteOf]
      simp only [hourUs] at hmod
      omega
    have hs2 : secondOf start_dt = 0 := by
      simp only [secondOf]
      simp only [hourUs] at hmod
      omega
    rw [hm, hs2, if_neg (by simp)] at heff
    have hk0 : k * hourUs = 0 := by omega
    have hk : k = 0 := by
      rcases Nat.mul_eq_zero.mp hk0 with h | h
      · exact h
      · exact absurd h (by norm_num [hourUs])
    subst hk
    rw [hsl, List.range_succ_eq_map]
    simp [htr]

/-- C2 witness: the range from 01:00:00 to 02:00:00.000005 resolves to the
two slots 01:00 and 02:00 (microseconds alone trigger no extra hour), the
first slot is the truncated start, and the truncated end is included. -/
theorem C2_resolve_range_witness :
    3600000000 ≤ 7200000005 ∧
    download_data_for_range_slots 3600000000 7200000005 =
      [3600000000, 7200000000] ∧
    (download_data_for_range_slots 3600000000 7200000005).head? =
      some (truncHour 3600000000) ∧
    truncHour 7200000005 ∈ download_data_for_range_slots 3600000000 7200000005 := by
  refine ⟨by decide, ?_, (C2_resolve_range 3600000000 7200000005 (by decide)).2.1,
    (C2_resolve_range 3600000000 7200000005 (by decide)).2.2.2.1
      (by decide) (by decide)⟩
  norm_num [download_data_for_range_slots, truncHour, minuteOf, secondOf, hourUs]
  rw [hoursToProcess_step]
  norm_num [hourUs]
  rw [hoursToProcess_step]
  norm_num [hourUs]
  rw [hoursToProcess_step]
  norm_num [hourUs]

/-- C3: the coordinator returns one boolean outcome per input slot, in the
order of the input sequence (result `i` is the outcome of slot `i`), and the
outcome of a slot is unchanged when the environment of any other slot —
including a forced failure — or the pool size changes. -/
theorem C3_coordinator_order_and_independence
    (envs₁ envs₂ : Nat → SlotEnv) (fss₁ fss₂ : Nat → SlotFiles)
    (slots : List Nat) (k₁ k₂ s₀ : Nat)
    (hagree : ∀ s, s ≠ s₀ → envs₁ s = envs₂ s ∧ fss₁ s = fss₂ s) :
    (executor_map_results envs₁ fss₁ k₁ slots).length = slots.length ∧
    (∀ (i : Nat), (executor_map_results envs₁ fss₁ k₁ slots)[i]? =
      (slots[i]?).map (fun s => (process_hour_data (envs₁ s) (fss₁ s)).ok)) ∧
    (∀ (i s : Nat), slots[i]? = some s → s ≠ s₀ →
      (executor_map_results envs₁ fss₁ k₁ slots)[i]? =
        (executor_map_results envs₂ fss₂ k₂ slots)[i]?) := by
  refine ⟨by simp [executor_map_results], ?_, ?_⟩
  · intro i
    simp [executor_map_results, List.getElem?_map]
  · intro i s hs hne
    obtain ⟨henv, hfs⟩ := hagree s hne
    simp [executor_map_results, List.getElem?_map, hs, henv, hfs]

/-- C3 witness: over the two slots `[0, 1]`, forcing slot `0` to fail in the
second environment (and changing the pool size) leaves the reported outcome
of slot `1` unchanged, and the result list matches the slots in length. -/
theorem C3_coordinator_witness :
    (executor_map_results (fun _ => ⟨NetResult.connError, fun _ => none⟩)
        (fun _ => ⟨none, some []⟩) 2 [0, 1]).length = ([0, 1] : List Nat).length ∧
    (∀ (i s : Nat), (([0, 1] : List Nat))[i]? = some s → s ≠ 0 →
      (executor_map_results (fun _ => ⟨NetResult.connError, fun _ => none⟩)
          (fun _ => ⟨none, some []⟩) 2 [0, 1])[i]? =
        (executor_map_results
          (fun s => if s = 0 then ⟨NetResult.response 404 [] true, fun _ => none⟩
                    else ⟨NetResult.connError, fun _ => none⟩)
          (fun _ => ⟨none, some []⟩) 7 [0, 1])[i]?) := by
  have h := C3_coordinator_order_and_independence
    (fun _ => ⟨NetResult.connError, fun _ => none⟩)
    (fun s => if s = 0 then ⟨NetResult.response 404 [] true, fun _ => none⟩
              else ⟨NetResult.connError, fun _ => none⟩)
    (fun _ => ⟨none, some []⟩) (fun _ => ⟨none, some []⟩)
    [0, 1] 2 7 0
    (fun s hs => ⟨by simp [hs], rfl⟩)
  exact ⟨h.1, h.2.2⟩

/-- The processing order of a trace of the per-file loop is exactly the file
list handed to the loop. -/
theorem processedOrder_process_files (env : LoaderEnv) (l : List String) :
    processedOrder (process_files env l) = l := by
  induction l with
  | nil => rfl
  | cons f rest ih =>
    by_cases h : env.uploadOk f <;>
      simp [process_files, processedOrder, h] at ih ⊢ <;> exact ih

/-- A `COPY` event for `f` occurs in a per-file loop trace exactly when `f`
is in the file list and its upload succeeded. -/
theorem copy_mem_process_files (env : LoaderEnv) (l : List String) (f : String) :
    LoadEvent.copy f ∈ process_files env l ↔ f ∈ l ∧ env.uploadOk f = true := by
  induction l with
  | nil => simp [process_files]
  | cons g rest ih =>
    by_cases h : env.uploadOk g
    · simp [process_files, h, ih]
      constructor
      · rintro (rfl | hmem)
        · exact ⟨Or.inl rfl, h⟩
        · exact ⟨Or.inr hmem.1, hmem.2⟩
      · rintro ⟨rfl | hmem, hup⟩
        · exact Or.inl rfl
        · exact Or.inr ⟨hmem, hup⟩
    · simp [process_files, h, ih]
      intro hup heq
      subst heq
      exact absurd hup h

/-- A `PUT` event for `g` occurs in a per-file loop trace exactly when `g`
is in the file list: every file is attempted regardless of other files'
failures. -/
theorem put_mem_process_files (env : LoaderEnv) (l : List String) (g : String) :
    LoadEvent.put g ∈ process_files env l ↔ g ∈ l := by
  induction l with
  | nil => simp [process_files]
  | cons f rest ih =>
    by_cases h : env.uploadOk f <;> simp [process_files, h, ih]

/-- `py_sorted` permutes its input. -/
theorem py_sorted_perm (l : List String) : (py_sorted l).Perm l :=
  List.perm_insertionSort _ l

/-- `py_sorted` output is sorted under the lexicographic `String` order. -/
theorem py_sorted_sorted (l : List String) : List.Sorted (· ≤ ·) (py_sorted l) :=
  List.sorted_insertionSort _ l

/-- With a live connection the loader trace is the per-file loop over the
sorted `.txt` listing. -/
theorem load_alive (env : LoaderEnv) (dir_listing : List String) :
    load_data_from_local_to_snowflake true env dir_listing =
      process_files env (py_sorted (dir_listing.filter (fun f => endswith_txt f))) := by
  simp [load_data_from_local_to_snowflake]

/-- C5: if the stage upload of a file fails, the `COPY` for that file is
never issued, while every other `.txt` file of the directory is still
uploaded, and copied whenever its own upload succeeds — one file's failure
never stops processing of the files after it. -/
theorem C5_upload_failure_skips_copy (env : LoaderEnv) (dir_listing : List String)
    (f : String) (hf : env.uploadOk f = false) :
    LoadEvent.copy f ∉ load_data_from_local_to_snowflake true env dir_listing ∧
    ∀ g, g ∈ dir_listing → endswith_txt g = true →
      (LoadEvent.put g ∈ load_data_from_local_to_snowflake true env dir_listing ∧
       (env.uploadOk g = true →
         LoadEvent.copy g ∈ load_data_from_local_to_snowflake true env dir_listing)) := by
  constructor
  · intro hmem
    rw [load_alive, copy_mem_process_files, hf] at hmem
    simp at hmem
  · intro g hg htxt
    have hmem : g ∈ py_sorted (dir_listing.filter (fun f => endswith_txt f)) :=
      (py_sorted_perm _).mem_iff.mpr (List.mem_filter.mpr ⟨hg, htxt⟩)
    refine ⟨?_, ?_⟩
    · rw [load_alive]
      exact (put_mem_process_files _ _ _).mpr hmem
    · intro hup
      rw [load_alive]
      exact (copy_mem_process_files _ _ _).mpr ⟨hmem, hup⟩

/-- C5 witness: with the upload of `b.txt` forced to fail, `b.txt` is never
copied while `a.txt` — later in the directory listing — is still uploaded
and copied. -/
theorem C5_upload_failure_witness :
    (LoaderEnv.mk (fun f => if f = "b.txt" then false else true)).uploadOk "b.txt"
      = false ∧
    LoadEvent.copy "b.txt" ∉
      load_data_from_local_to_snowflake true
        ⟨fun f => if f = "b.txt" then false else true⟩ ["b.txt", "a.txt"] ∧
    LoadEvent.put "a.txt" ∈
      load_data_from_local_to_snowflake true
        ⟨fun f => if f = "b.txt" then false else true⟩ ["b.txt", "a.txt"] ∧
    LoadEvent.copy "a.txt" ∈
      load_data_from_local_to_snowflake true
        ⟨fun f => if f = "b.txt" then false else true⟩ ["b.txt", "a.txt"] := by
  have h := C5_upload_failure_skips_copy
    ⟨fun f => if f = "b.txt" then false else true⟩ ["b.txt", "a.txt"] "b.txt"
    (by decide)
  have ha := h.2 "a.txt" (by decide) (by decide)
  exact ⟨by decide, h.1, ha.1, ha.2 (by decide)⟩

/-- C9: the loader processes the `.txt` files of the directory in
lexicographic order of their names: the processing order is sorted, and for
a directory containing both `a.txt` and `b.txt`, both appear in the
processing order and every occurrence of `a.txt` comes strictly before every
occurrence of `b.txt`. -/
theorem C9_lexicographic_order (env : LoaderEnv) (dir_listing : List String)
    (ha : "a.txt" ∈ dir_listing) (hb : "b.txt" ∈ dir_listing) :
    List.Sorted (· ≤ ·)
      (processedOrder (load_data_from_local_to_snowflake true env dir_listing)) ∧
    "a.txt" ∈ processedOrder (load_data_from_local_to_snowflake true env dir_listing) ∧
    "b.txt" ∈ processedOrder (load_data_from_local_to_snowflake true env dir_listing) ∧
    ∀ i j
      (hi : i <
        (processedOrder (load_data_from_local_to_snowflake true env dir_listing)).length)
      (hj : j <
        (processedOrder (load_data_from_local_to_snowflake true env dir_listing)).length),
      (processedOrder (load_data_from_local_to_snowflake true env dir_listing)).get ⟨i, hi⟩
        = "a.txt" →
      (processedOrder (load_data_from_local_to_snowflake true env dir_listing)).get ⟨j, hj⟩
        = "b.txt" →
      i < j := by
  have horder : processedOrder (load_data_from_local_to_snowflake true env dir_listing) =
      py_sorted (dir_listing.filter (fun f => endswith_txt f)) := by
    rw [load_alive, processedOrder_process_files]
  have hsorted : List.Sorted (· ≤ ·)
      (processedOrder (load_data_from_local_to_snowflake true env dir_listing)) := by
    rw [horder]; exact py_sorted_sorted _
  have hma : "a.txt" ∈
      processedOrder (load_data_from_local_to_snowflake true env dir_listing) := by
    rw [horder]
    exact (py_sorted_perm _).mem_iff.mpr (List.mem_filter.mpr ⟨ha, by decide⟩)
  have hmb : "b.txt" ∈
      processedOrder (load_data_from_local_to_snowflake true env dir_listing) := by
    rw [horder]
    exact (py_sorted_perm _).mem_iff.mpr (List.mem_filter.mpr ⟨hb, by decide⟩)
  refine ⟨hsorted, hma, hmb, ?_⟩
  intro i j hi hj hia hjb
  by_contra hij
  have hlt : ("a.txt" : String) < "b.txt" := by
    rw [String.lt_iff_toList_lt]; decide
  rcases Nat.lt_or_ge j i with hji | hge
  · have hrel := (List.pairwise_iff_get.mp hsorted) ⟨j, hj⟩ ⟨i, hi⟩ hji
    rw [hia, hjb] at hrel
    exact absurd hrel (not_le.mpr hlt)
  · have heq : i = j := by omega
    subst heq
    rw [hia] at hjb
    exact absurd hjb (by decide)

/-- C9 witness: a directory listing `["b.txt", "a.txt"]` is processed in
sorted order, with `a.txt` before `b.txt`. -/
theorem C9_lexicographic_order_witness :
    "a.txt" ∈ (["b.txt", "a.txt"] : List String) ∧
    "b.txt" ∈ (["b.txt", "a.txt"] : List String) ∧
    List.Sorted (· ≤ ·)
      (processedOrder (load_data_from_local_to_snowflake true ⟨fun _ => true⟩
        ["b.txt", "a.txt"])) ∧
    (∀ i j
      (hi : i < (processedOrder (load_data_from_local_to_snowflake true ⟨fun _ => true⟩
        ["b.txt", "a.txt"])).length)
      (hj : j < (processedOrder (load_data_from_local_to_snowflake true ⟨fun _ => true⟩
        ["b.txt", "a.txt"])).length),
      (processedOrder (load_data_from_local_to_snowflake true ⟨fun _ => true⟩
        ["b.txt", "a.txt"])).get ⟨i, hi⟩ = "a.txt" →
      (processedOrder (load_data_from_local_to_snowflake true ⟨fun _ => true⟩
        ["b.txt", "a.txt"])).get ⟨j, hj⟩ = "b.txt" →
      i < j) := by
  have h := C9_lexicographic_order ⟨fun _ => true⟩ ["b.txt", "a.txt"]
    (by decide) (by decide)
  exact ⟨by decide, by decide, h.1, h.2.2.2⟩

/-- C7: `setup_snowflake_objects` aborts on the first DDL failure with strict
sequential dependency — a schema failure attempts neither stage nor table, a
stage failure attempts no table — and returns `True` exactly when all three
DDL statements succeed. -/
theorem C7_setup_aborts_on_first_failure (env : DdlEnv) :
    (env.schemaOk = false →
      setup_snowflake_objects true env = (false, [DdlStmt.createSchema])) ∧
    (env.schemaOk = true → env.stageOk = false →
      setup_snowflake_objects true env =
        (false, [DdlStmt.createSchema, DdlStmt.createStage])) ∧
    (env.schemaOk = true → env.stageOk = true → env.tableOk = false →
      setup_snowflake_objects true env =
        (false, [DdlStmt.createSchema, DdlStmt.createStage, DdlStmt.createTable])) ∧
    ((setup_snowflake_objects true env).fst = true ↔
      env.schemaOk = true ∧ env.stageOk = true ∧ env.tableOk = true) := by
  obtain ⟨s, st, t⟩ := env
  cases s <;> cases st <;> cases t <;> decide

/-- C7 witness: a failing schema creation returns `False` having attempted
only the `CREATE SCHEMA` statement. -/
theorem C7_setup_witness :
    (DdlEnv.mk false true true).schemaOk = false ∧
    setup_snowflake_objects true ⟨false, true, true⟩ =
      (false, [DdlStmt.createSchema]) :=
  ⟨rfl, (C7_setup_aborts_on_first_failure ⟨false, true, true⟩).1 rfl⟩

/-- C6: if establishing the warehouse connection fails, neither
`setup_snowflake_objects` nor `load_data_from_local_to_snowflake` is ever
invoked; and on every run in which the connection was established,
`close_connection` is invoked — also when object setup or loading fails
partway. -/
theorem C6_connection_gating_and_release (env : WorkflowEnv) :
    (env.connectOk = false →
      WfEvent.setupCall ∉ run_ingestion_workflow env ∧
      WfEvent.loadCall ∉ run_ingestion_workflow env) ∧
    (WfEvent.connectCall ∈ run_ingestion_workflow env → env.connectOk = true →
      WfEvent.closeCall ∈ run_ingestion_workflow env) := by
  obtain ⟨d, c, k, ⟨s, st, t⟩⟩ := env
  cases d <;> cases c <;> cases k <;> cases s <;> cases st <;> cases t <;> decide

/-- C6 witness: with a failing connection, no setup or load step runs; with
an established connection and a failing object setup, `close_connection` is
still reached. -/
theorem C6_connection_gating_witness :
    ((WorkflowEnv.mk true true false ⟨true, true, true⟩).connectOk = false ∧
      WfEvent.setupCall ∉ run_ingestion_workflow ⟨true, true, false, ⟨true, true, true⟩⟩ ∧
      WfEvent.loadCall ∉ run_ingestion_workflow ⟨true, true, false, ⟨true, true, true⟩⟩) ∧
    (WfEvent.connectCall ∈ run_ingestion_workflow ⟨true, true, true, ⟨false, true, true⟩⟩ ∧
      WfEvent.closeCall ∈ run_ingestion_workflow ⟨true, true, true, ⟨false, true, true⟩⟩) := by
  have h1 := (C6_connection_gating_and_release ⟨true, true, false, ⟨true, true, true⟩⟩).1 rfl
  have h2 := (C6_connection_gating_and_release ⟨true, true, true, ⟨false, true, true⟩⟩).2
    (by decide) rfl
  exact ⟨⟨rfl, h1.1, h1.2⟩, by decide, h2⟩

/-- Two strings with the same character data are equal. -/
theorem string_data_inj {s t : String} (h : s.data = t.data) : s = t := by
  cases s
  cases t
  exact congrArg String.mk h

/-- The `PUT` command text depends injectively on the configured connection
schema. -/
theorem put_sql_schema_inj (cfg cfg' : SnowflakeLoaderCfg)
    (local_path stage_name : String) (hne : cfg.schema ≠ cfg'.schema) :
    put_sql cfg local_path stage_name ≠ put_sql cfg' local_path stage_name := by
  intro h
  apply hne
  apply string_data_inj
  have h2 := congrArg String.data h
  simp only [put_sql, full_stage_name, connection_schema, String.data_append,
    List.append_assoc] at h2
  have h3 := List.append_cancel_left h2
  have h4 := List.append_cancel_left h3
  have h5 := List.append_cancel_left h4
  exact List.append_cancel_right h5

set_option maxRecDepth 8000 in
/-- The `COPY INTO` command text depends injectively on the configured
connection schema. -/
theorem copy_sql_schema_inj (cfg cfg' : SnowflakeLoaderCfg)
    (file_name stage_name table_name : String) (hne : cfg.schema ≠ cfg'.schema) :
    copy_sql cfg file_name stage_name table_name ≠
      copy_sql cfg' file_name stage_name table_name := by
  intro h
  apply hne
  apply string_data_inj
  have h2 := congrArg String.data h
  simp only [copy_sql, full_table_name, full_stage_name, connection_schema,
    String.data_append, List.append_assoc] at h2
  have h3 := List.append_cancel_left h2
  have hlen := congrArg List.length h3
  simp only [List.length_append] at hlen
  have hl : cfg.schema.data.length = cfg'.schema.data.length := by omega
  exact (List.append_inj h3 hl).1

/-- C10: the DDL statements of `setup_snowflake_objects` target the literal
schema `WIKIPEDIA` and are identical for any two configurations — the
`schema` connection parameter does not influence them — whereas the `PUT`
and `COPY INTO` commands qualify their stage and table names with the
configured `schema` connection parameter, and genuinely change when that
parameter changes. -/
theorem C10_ddl_literal_schema_dml_configured_schema
    (cfg cfg' : SnowflakeLoaderCfg)
    (stage_name table_name local_path file_name : String) :
    setup_ddl_statements cfg stage_name table_name =
      setup_ddl_statements cfg' stage_name table_name ∧
    schema_sql cfg = "CREATE SCHEMA IF NOT EXISTS WIKIPEDIA" ∧
    stage_sql cfg stage_name = "CREATE STAGE IF NOT EXISTS WIKIPEDIA." ++ stage_name ∧
    full_stage_name cfg stage_name = cfg.schema ++ "." ++ stage_name ∧
    full_table_name cfg table_name = cfg.schema ++ "." ++ table_name ∧
    (cfg.schema ≠ cfg'.schema →
      put_sql cfg local_path stage_name ≠ put_sql cfg' local_path stage_name ∧
      copy_sql cfg file_name stage_name table_name ≠
        copy_sql cfg' file_name stage_name table_name) :=
  ⟨rfl, rfl, rfl, rfl, rfl, fun hne =>
    ⟨put_sql_schema_inj cfg cfg' local_path stage_name hne,
     copy_sql_schema_inj cfg cfg' file_name stage_name table_name hne⟩⟩

/-- C10 witness: two configurations differing only in the `schema` connection
parameter issue identical DDL but different `PUT` and `COPY` commands. -/
theorem C10_schema_witness :
    (SnowflakeLoaderCfg.mk "a" "u" "p" "w" "d" "WIKIPEDIA" "r").schema ≠
      (SnowflakeLoaderCfg.mk "a" "u" "p" "w" "d" "OTHER" "r").schema ∧
    setup_ddl_statements ⟨"a", "u", "p", "w", "d", "WIKIPEDIA", "r"⟩ "stg" "tbl" =
      setup_ddl_statements ⟨"a", "u", "p", "w", "d", "OTHER", "r"⟩ "stg" "tbl" ∧
    put_sql ⟨"a", "u", "p", "w", "d", "WIKIPEDIA", "r"⟩ "f.txt" "stg" ≠
      put_sql ⟨"a", "u", "p", "w", "d", "OTHER", "r"⟩ "f.txt" "stg" ∧
    copy_sql ⟨"a", "u", "p", "w", "d", "WIKIPEDIA", "r"⟩ "f.txt" "stg" "tbl" ≠
      copy_sql ⟨"a", "u", "p", "w", "d", "OTHER", "r"⟩ "f.txt" "stg" "tbl" := by
  have h := C10_ddl_literal_schema_dml_configured_schema
    ⟨"a", "u", "p", "w", "d", "WIKIPEDIA", "r"⟩
    ⟨"a", "u", "p", "w", "d", "OTHER", "r"⟩ "stg" "tbl" "f.txt" "f.txt"
  have hne := h.2.2.2.2.2 (by decide)
  exact ⟨by decide, h.1, hne.1, hne.2⟩

end WikipediaIngest
